import Mathlib

/-!
Verification of the jfk-files document conversion pipeline.

This file gives a shallow embedding, in Lean 4, of the core conversion and
format-detection functions of the repository:

 * `src/src/utils/conversion_utils.py` — `post_process_markdown`,
   `validate_markdown_quality`, `convert_to_markdown_or_json`,
   `_convert_markdown_to_json`;
 * `src/src/utils/pdf_utils.py` — `is_scanned_pdf`, `detect_document_format`;
 * `src/src/utils/pdf2md_wrapper.py` — `PDF2MarkdownWrapper.markdown`,
   `convert_pdf_to_markdown`, `_fallback_convert`;
 * `src/scripts/format_gpt_json.py` — `format_for_gpt`.

Python strings are modelled as Lean `String` / `List Char` (ASCII fragment of
the `re` character classes `\w`, `\s`); the file system, the PDF library
(PyMuPDF) and the OCR backends are modelled as explicit environments whose
fallible calls return `Except`.  Exceptions are modelled with the `Except`
monad: a Python `try/except` block becomes a `match` on the `Except` value.

The theorems at the end of the file settle the claims about this code.
-/

namespace JFK

/-! ## Python string primitives -/

/-- Python whitespace for `str.strip` and the `re` class `\s`
(space, tab, newline, carriage return, vertical tab, form feed). -/
def pyIsSpace (c : Char) : Bool :=
  c = ' ' || c = '\t' || c = '\n' || c = '\r' || c = '\x0b' || c = '\x0c'

/-- The `re` word class `\w` (ASCII fragment): alphanumeric or underscore. -/
def isWordChar (c : Char) : Bool :=
  c.isAlphanum || c = '_'

/-- Python `str.strip()` on a character list. -/
def pyStrip (l : List Char) : List Char :=
  ((l.dropWhile pyIsSpace).reverse.dropWhile pyIsSpace).reverse

/-- Python `str.lstrip()` on a character list. -/
def pyLStrip (l : List Char) : List Char :=
  l.dropWhile pyIsSpace

/-- Python `str.strip()` on a `String`. -/
def pyStripS (s : String) : String :=
  ⟨pyStrip s.data⟩

/-- Python `str.lower()` on a character list. -/
def pyLower (l : List Char) : List Char :=
  l.map Char.toLower

/-- Python `str.upper()` on a character list. -/
def pyUpper (l : List Char) : List Char :=
  l.map Char.toUpper

/-- Python `needle in haystack` substring test. -/
def containsSub (needle hay : List Char) : Bool :=
  hay.tails.any (fun t => needle.isPrefixOf t)

/-- Split a character list on a separator character, Python `str.split(sep)`
semantics: the empty input gives one empty field. -/
def splitOnCharAux (sep : Char) : List Char → List Char → List (List Char)
  | cur, [] => [cur.reverse]
  | cur, c :: rest =>
    if c = sep then cur.reverse :: splitOnCharAux sep [] rest
    else splitOnCharAux sep (c :: cur) rest

/-- Python `text.split(sep)` for a one-character separator. -/
def splitOnChar (sep : Char) (l : List Char) : List (List Char) :=
  splitOnCharAux sep [] l

/-- Join character lists with a one-character separator. -/
def joinWithChar (sep : Char) : List (List Char) → List Char
  | [] => []
  | [x] => x
  | x :: y :: rest => x ++ sep :: joinWithChar sep (y :: rest)

/-- Python `os.path.basename` for `/`-separated paths. -/
def pyBasename (p : String) : String :=
  match (splitOnChar '/' p.data).reverse with
  | [] => p
  | last :: _ => ⟨last⟩

/-- Python `os.path.splitext`: split a file name at its last dot (file names
beginning with a dot are not modelled; the pipeline never produces them). -/
def pySplitExt (name : String) : String × String :=
  match splitOnChar '.' name.data with
  | [] => (name, "")
  | [_] => (name, "")
  | parts =>
    (⟨joinWithChar '.' parts.dropLast⟩, ⟨'.' :: (parts.getLastD [])⟩)

/-- Python `os.path.join(dir, name)` for a relative directory with no
trailing separator (the only shape the pipeline uses). -/
def pyJoin (dir name : String) : String :=
  dir ++ "/" ++ name

/-- Rendering of a Python `Option`-like value inside an f-string:
`None` prints as the text `None`. -/
def pyStr (v : Option String) : String :=
  match v with
  | some s => s
  | none => "None"

/-! ## `validate_markdown_quality` (conversion_utils.py lines 110–161)

The three quality checks of the source, each producing one sub-score that is
appended to the `scores` list; the final score is `sum(scores)/len(scores)`.
The human-readable issue strings keep the source wording but drop the
interpolated numeric ratio. -/

/-- Characters the source's `garbled_pattern` treats as normal: `\w`, `\s`
and the fixed punctuation set of the regex (conversion_utils.py line 128). -/
def isNormalChar (c : Char) : Bool :=
  isWordChar c || pyIsSpace c ||
  (c = '.' || c = ',' || c = '?' || c = '!' || c = ':' || c = ';' || c = '-' ||
   c = '\x27' || c = '\x22' || c = '(' || c = ')' || c = '[' || c = ']' ||
   c = '\x7b' || c = '\x7d' || c = '@' || c = '#' || c = '$' || c = '%' ||
   c = '&' || c = '*' || c = '+' || c = '=' || c = '/' || c = '\\' ||
   c = '|' || c = '<' || c = '>' || c = '~' || c = '\x60')

/-- Total length of all maximal garbled runs found by
`re.findall(garbled_pattern, text)`: since the runs partition the garbled
characters, this is the number of characters outside the normal set. -/
def garbledCount (l : List Char) : Nat :=
  (l.filter (fun c => !isNormalChar c)).length

/-- Count leading `#` characters; return the count and the rest. -/
def takeHashes : List Char → Nat × List Char
  | [] => (0, [])
  | c :: rest =>
    if c = '#' then
      let p := takeHashes rest
      (p.1 + 1, p.2)
    else (0, c :: rest)

/-- Fuel-driven scanner for `re.findall(r'^#+\s', text, re.MULTILINE)`:
counts the matches of one-or-more `#` followed by one whitespace character at
a line start (the whitespace may be the terminating newline itself). -/
def headerScanAux : Nat → Bool → List Char → Nat
  | 0, _, _ => 0
  | _ + 1, _, [] => 0
  | fuel + 1, atStart, c :: rest =>
    if atStart && c = '#' then
      let p := takeHashes rest
      match p.2 with
      | [] => 0
      | d :: rest2 =>
        if pyIsSpace d then 1 + headerScanAux fuel (d = '\n') rest2
        else headerScanAux fuel false (d :: rest2)
    else
      headerScanAux fuel (c = '\n') rest

/-- Number of markdown header lines found by the source's multiline regex. -/
def headerCount (s : String) : Nat :=
  headerScanAux (s.data.length + 1) true s.data

/-- Ratio of garbled characters (conversion_utils.py line 130), with the
source's guard against division by zero. -/
def garbledFrac (s : String) : ℚ :=
  if s.data.length > 0 then (garbledCount s.data : ℚ) / (s.data.length : ℚ) else 0

/-- The lines of a Python `text.split('\n')`. -/
def pyLines (s : String) : List String :=
  (splitOnChar '\n' s.data).map (fun cs => (⟨cs⟩ : String))

/-- Ratio of blank lines (conversion_utils.py line 148), with the source's
guard for an empty line list. -/
def emptyLineFrac (s : String) : ℚ :=
  let lines := pyLines s
  if lines.length ≠ 0 then
    (((lines.filter (fun l => (pyStrip l.data).isEmpty)).length : ℚ) / (lines.length : ℚ))
  else 0

/-- The validator's output: a score and a list of issues. -/
structure QualityScore where
  score : ℚ
  issues : List String
deriving Repr, DecidableEq

/-- `validate_markdown_quality` (conversion_utils.py lines 110–161). -/
def validate_markdown_quality (s : String) : QualityScore :=
  if s.data.isEmpty || (pyStrip s.data).isEmpty then
    { score := 0, issues := ["Empty content"] }
  else
    let p1 : ℚ × List String :=
      if garbledFrac s > 1/10 then (3/10, ["High ratio of garbled characters"])
      else (8/10, [])
    let p2 : ℚ × List String :=
      if headerCount s < 2 ∧ s.data.length > 500 then (5/10, ["Lack of document structure"])
      else (9/10, [])
    let p3 : ℚ × List String :=
      if emptyLineFrac s > 2/5 then (6/10, ["Excessive empty lines"])
      else (9/10, [])
    let scores : List ℚ := [p1.1, p2.1, p3.1]
    let avg : ℚ := if scores.length ≠ 0 then scores.sum / (scores.length : ℚ) else 0
    { score := avg, issues := p1.2 ++ p2.2 ++ p3.2 }

/-! ## `post_process_markdown` (conversion_utils.py lines 31–107)

OCR character fixes followed by the line-structuring pass.  The OCR fixes are
the source's three `re.sub` calls, applied in dict order: collapse runs of two
or more spaces to one, whole-word `l` to `1`, whole-word `O` to `0`, then
remove soft hyphens. -/

/-- `re.sub(r' {2,}', ' ', text)`: a run of spaces becomes a single space
(runs of length one are already a single space). -/
def collapseSpacesAux : Bool → List Char → List Char
  | _, [] => []
  | prevSpace, c :: rest =>
    if c = ' ' then
      if prevSpace then collapseSpacesAux true rest
      else ' ' :: collapseSpacesAux true rest
    else c :: collapseSpacesAux false rest

/-- Collapse runs of spaces, starting outside a run. -/
def collapseSpaces (l : List Char) : List Char :=
  collapseSpacesAux false l

/-- One whole-word single-character substitution `re.sub(r'\btgt\b', repl)`:
the character is replaced when both neighbours (or the string ends) are
non-word characters.  Boundaries are those of the input string; a
single-character match cannot overlap, so one pass is exact. -/
def subWordChar (tgt repl : Char) : Option Char → List Char → List Char
  | _, [] => []
  | prev, c :: rest =>
    let before := match prev with
      | none => true
      | some p => !isWordChar p
    let after := match rest with
      | [] => true
      | d :: _ => !isWordChar d
    let c2 := if c = tgt && before && after then repl else c
    c2 :: subWordChar tgt repl (some c) rest

/-- The three OCR fixes of the source's `ocr_fixes` dict, in insertion order:
`\bl\b → 1`, `\bO\b → 0`, and soft-hyphen removal. -/
def ocrFixes (l : List Char) : List Char :=
  ((subWordChar 'O' '0' none (subWordChar 'l' '1' none l)).filter (fun c => c ≠ '\xad'))

/-- `re.match(r'^#+\s', line)` on a single line (no newline inside). -/
def matchHeaderLine (line : String) : Bool :=
  let p := takeHashes line.data
  decide (p.1 ≥ 1) &&
    (match p.2 with
     | [] => false
     | d :: _ => pyIsSpace d)

/-- `re.match(r'^\s*[*-]\s', line)` on a single line. -/
def matchListItem (line : String) : Bool :=
  match line.data.dropWhile pyIsSpace with
  | c :: d :: _ => (c = '*' || c = '-') && pyIsSpace d
  | _ => false

/-- Last element of the accumulated `structured_lines` (Python `lines[-1]`);
only consulted when the list is non-empty. -/
def lastLine (acc : List String) : String :=
  acc.getLastD ""

/-- The structuring loop of `post_process_markdown` (lines 66–106): state is
the accumulated output lines, the `in_list` flag and the `prev_was_header`
flag. -/
def ppLoop : List String → Bool → Bool → List String → List String
  | acc, _, _, [] => acc
  | acc, inList, prevHeader, line :: rest =>
    if matchHeaderLine line then
      let acc2 :=
        if ¬ prevHeader ∧ acc ≠ [] ∧ lastLine acc ≠ "" then acc ++ [""] else acc
      ppLoop (acc2 ++ [line]) false true rest
    else if matchListItem line then
      ppLoop (acc ++ [line]) true false rest
    else
      if prevHeader ∧ pyStripS line ≠ "" then
        ppLoop (acc ++ [line]) inList false rest
      else if inList ∧ pyStripS line = "" then
        ppLoop (acc ++ [line]) false false rest
      else if ¬ inList ∧ pyStripS line ≠ "" then
        if acc ≠ [] ∧ lastLine acc ≠ "" ∧ ¬ prevHeader then
          ppLoop (acc ++ [line]) inList false rest
        else
          let acc2 := if acc ≠ [] ∧ lastLine acc ≠ "" then acc ++ [""] else acc
          ppLoop (acc2 ++ [line]) inList false rest
      else
        ppLoop (acc ++ [line]) inList false rest

/-- `post_process_markdown` (conversion_utils.py lines 31–107). -/
def post_process_markdown (markdown_text : String) (is_ocr : Bool) : String :=
  if markdown_text.data.isEmpty || (pyStrip markdown_text.data).isEmpty then
    markdown_text
  else
    let fixed : List Char :=
      if is_ocr then ocrFixes (collapseSpaces markdown_text.data)
      else markdown_text.data
    let lines := pyLines ⟨fixed⟩
    String.intercalate "\n" (ppLoop [] false false lines)

/-- The garbled-ratio sub-score in isolation (first `scores.append`). -/
def garbledSubscore (s : String) : ℚ :=
  if garbledFrac s > 1/10 then 3/10 else 8/10

/-- The structure-presence sub-score in isolation (second `scores.append`). -/
def structureSubscore (s : String) : ℚ :=
  if headerCount s < 2 ∧ s.data.length > 500 then 5/10 else 9/10

/-- The blank-line-ratio sub-score in isolation (third `scores.append`). -/
def blankLineSubscore (s : String) : ℚ :=
  if emptyLineFrac s > 2/5 then 6/10 else 9/10

/-! ## `pdf_utils.py`: document model

A PDF document, as seen through the PyMuPDF calls the source makes: the
encryption flag, the result of an empty-password `authenticate("")` (which
may itself raise), and per page the length of the stripped extracted text,
the number of embedded images, the page rotation, and the font name list
(whose retrieval may raise; the source swallows that per page). -/

deriving instance DecidableEq for Except

/-- One page of an open document. -/
structure PdfPage where
  textStripLen : Nat
  imageCount : Nat
  rotation : Int
  fonts : Except Unit (List String)
deriving Repr, DecidableEq

/-- An open document (`fitz.open` result). -/
structure PdfDoc where
  is_encrypted : Bool
  authEmpty : Except Unit Bool
  pages : List PdfPage
deriving Repr, DecidableEq

/-- Environment of `detect_document_format`: the file-size call and the
document-open call, each of which may raise. -/
structure DetectEnv where
  getSizeBytes : Except String Nat
  openDoc : Except String PdfDoc
deriving Repr, DecidableEq

/-- Environment of `is_scanned_pdf`: only the document-open call. -/
structure ScanEnv where
  openDoc : Except String PdfDoc
deriving Repr, DecidableEq

/-- The `rare_format_type` values the detector can store (plus
`analysis_error`, which the spec lists but the code never assigns). -/
inductive RareFormatType where
  | potentially_empty
  | encrypted
  | empty_document
  | unusual_rotation
  | unusual_fonts
  | analysis_error
deriving Repr, DecidableEq

/-- The `processing_strategy` values of `pdf_utils.py` (the detector only
produces the first five; the rest appear downstream in conversion_utils). -/
inductive ProcessingStrategy where
  | standard
  | cautious
  | decrypt_first
  | normalize_pages
  | careful_extraction
  | deep_repair
  | ocr_only
  | selective_ocr
deriving Repr, DecidableEq

/-- The detector's result dict.  `none` in an `Option` field models both a
Python `None` value and an absent key (the source's exception-path dict omits
`rare_format_type`, `file_size_mb` and `page_count`; the PyMuPDF-missing dict
also omits `processing_strategy`). -/
structure FormatReport where
  needs_ocr : Bool
  is_rare_format : Bool
  warnings : List String
  rare_format_type : Option RareFormatType
  processing_strategy : Option ProcessingStrategy
  file_size_mb : Option ℚ
  page_count : Option Nat
deriving Repr, DecidableEq

/-- A font name matches the source's unusual-font test: `"symbol"` or
`"zapf"` occurs in its lowercase form (pdf_utils.py line 284). -/
def isUnusualFont (name : String) : Bool :=
  containsSub ("symbol".data) (pyLower name.data) ||
  containsSub ("zapf".data) (pyLower name.data)

/-- Pages of the sample with more than 100 characters of stripped text
(pdf_utils.py lines 266–268; same test at lines 66–68). -/
def countTextPages (ps : List PdfPage) : Nat :=
  (ps.filter (fun p => p.textStripLen > 100)).length

/-- Pages of the sample with at least one embedded image
(pdf_utils.py lines 271–273; same test at lines 71–73). -/
def countImagePages (ps : List PdfPage) : Nat :=
  (ps.filter (fun p => p.imageCount > 0)).length

/-- Pages of the sample with a non-zero rotation (lines 276–277). -/
def countRotatedPages (ps : List PdfPage) : Nat :=
  (ps.filter (fun p => p.rotation ≠ 0)).length

/-- Unusual-font hits over the sample: per page, fonts whose name matches the
symbol/zapf test; a raising `get_fonts` contributes nothing (lines 280–287). -/
def countUnusualFonts (ps : List PdfPage) : Nat :=
  (ps.map (fun p =>
    match p.fonts with
    | Except.ok fs => (fs.filter isUnusualFont).length
    | Except.error _ => 0)).sum

/-! ### `detect_document_format` (pdf_utils.py lines 172–330)

The body of the `try` block, split into the source's sequential update steps
on the result dict. -/

/-- Initial result dict (lines 196–202) plus the `file_size_mb` entry. -/
def initialReport (sizeMb : ℚ) : FormatReport :=
  { needs_ocr := false
    is_rare_format := false
    warnings := []
    rare_format_type := none
    processing_strategy := some ProcessingStrategy.standard
    file_size_mb := some sizeMb
    page_count := none }

/-- Size warnings and the potentially-empty branch (lines 209–216). -/
def sizeStep (sizeMb : ℚ) (r : FormatReport) : FormatReport :=
  let r1 :=
    if sizeMb > 50 then { r with warnings := r.warnings ++ ["Unusually large file"] }
    else r
  if sizeMb < 1/100 ∧ sizeMb > 0 then
    { r1 with warnings := r1.warnings ++ ["Unusually small file"]
              is_rare_format := true
              rare_format_type := some RareFormatType.potentially_empty
              processing_strategy := some ProcessingStrategy.cautious }
  else r1

/-- Encryption handling (lines 222–239): mark the document rare/encrypted,
then try an empty-password authentication; on success clear the rare flag and
restore the standard strategy (the source leaves `rare_format_type` as
`encrypted`); on failure or on a raising authenticate, set `needs_ocr`. -/
def encryptStep (doc : PdfDoc) (r : FormatReport) : FormatReport :=
  if doc.is_encrypted then
    let ra := { r with is_rare_format := true
                       rare_format_type := some RareFormatType.encrypted
                       warnings := r.warnings ++ ["Document is encrypted"]
                       processing_strategy := some ProcessingStrategy.decrypt_first }
    match doc.authEmpty with
    | Except.ok true =>
      { ra with warnings := ra.warnings ++ ["Document decrypted with empty password"]
                is_rare_format := false
                processing_strategy := some ProcessingStrategy.standard }
    | Except.ok false => { ra with needs_ocr := true }
    | Except.error _ => { ra with needs_ocr := true }
  else r

/-- Page count and the empty-document branch (lines 242–250). -/
def pageCountStep (pageCount : Nat) (r : FormatReport) : FormatReport :=
  let r1 := { r with page_count := some pageCount }
  if pageCount = 0 then
    { r1 with is_rare_format := true
              rare_format_type := some RareFormatType.empty_document
              warnings := r1.warnings ++ ["Document contains no pages"]
              processing_strategy := some ProcessingStrategy.cautious
              needs_ocr := false }
  else r1

/-- The text-versus-image OCR decision (lines 289–296). -/
def ocrDecideStep (textContent imageContent : Nat) (r : FormatReport) : FormatReport :=
  if textContent = 0 ∧ imageContent > 0 then
    { r with needs_ocr := true
             warnings := r.warnings ++ ["Document appears to be image-only (scanned)"] }
  else if textContent < imageContent then
    { r with needs_ocr := true
             warnings := r.warnings ++ ["Document appears to contain more images than text"] }
  else r

/-- The rotation override (lines 299–304): warn on any rotated page, and mark
the document rare when rotated pages exceed half of the sampled pages. -/
def rotationStep (unusualRotations pagesToCheck : Nat) (r : FormatReport) : FormatReport :=
  if unusualRotations > 0 then
    let rb := { r with warnings := r.warnings ++ ["Unusually rotated pages"] }
    if (unusualRotations : ℚ) > (pagesToCheck : ℚ) / 2 then
      { rb with is_rare_format := true
                rare_format_type := some RareFormatType.unusual_rotation
                processing_strategy := some ProcessingStrategy.normalize_pages }
    else rb
  else r

/-- The unusual-fonts override (lines 306–311): warn on any hit, and mark the
document rare when hits exceed 3.  The source does not touch `needs_ocr`
here. -/
def fontStep (unusualFonts : Nat) (r : FormatReport) : FormatReport :=
  if unusualFonts > 0 then
    let rc := { r with warnings := r.warnings ++ ["Unusual font references"] }
    if unusualFonts > 3 then
      { rc with is_rare_format := true
                rare_format_type := some RareFormatType.unusual_fonts
                processing_strategy := some ProcessingStrategy.careful_extraction }
    else rc
  else r

/-- The `try` body of `detect_document_format` (details variant): raising
calls surface as `Except.error`. -/
def detect_core (env : DetectEnv) : Except String FormatReport := do
  let bytes ← env.getSizeBytes
  let sizeMb : ℚ := (bytes : ℚ) / (1024 * 1024)
  let doc ← env.openDoc
  let pageCount := doc.pages.length
  let pagesToCheck := min 5 pageCount
  let sample := doc.pages.take pagesToCheck
  pure (fontStep (countUnusualFonts sample)
        (rotationStep (countRotatedPages sample) pagesToCheck
        (ocrDecideStep (countTextPages sample) (countImagePages sample)
        (pageCountStep pageCount
        (encryptStep doc
        (sizeStep sizeMb (initialReport sizeMb)))))))

/-- The dict returned from the `except` handler (lines 321–329): it has keys
`needs_ocr`, `is_rare_format`, `warnings`, `processing_strategy` only — in
particular no `rare_format_type` key. -/
def detectErrorReport (e : String) : FormatReport :=
  { needs_ocr := true
    is_rare_format := false
    warnings := ["Error in format detection: " ++ e]
    rare_format_type := none
    processing_strategy := some ProcessingStrategy.cautious
    file_size_mb := none
    page_count := none }

/-- The dict returned when PyMuPDF is unavailable (lines 184–192). -/
def detectNoLibReport : FormatReport :=
  { needs_ocr := true
    is_rare_format := false
    warnings := ["PyMuPDF not available for format detection"]
    rare_format_type := none
    processing_strategy := none
    file_size_mb := none
    page_count := none }

/-- `detect_document_format(path, include_details=True)`
(pdf_utils.py lines 172–330): total — the bare `except` converts every
internal failure into the cautious error dict. -/
def detect_document_format (hasPyMuPDF : Bool) (env : DetectEnv) : FormatReport :=
  if ¬ hasPyMuPDF then detectNoLibReport
  else
    match detect_core env with
    | Except.ok r => r
    | Except.error e => detectErrorReport e

/-- The boolean decision of `is_scanned_pdf` as a function of the text and
image page counts (pdf_utils.py line 78). -/
def scanDecision (textBlocks imageBlocks : Nat) : Bool :=
  decide (imageBlocks ≥ textBlocks) || decide (textBlocks = 0)

/-- The boolean `needs_ocr` decision of the detector's step 5 as a function
of the text and image page counts (pdf_utils.py lines 290–295). -/
def detectOcrDecision (textContent imageContent : Nat) : Bool :=
  (decide (textContent = 0) && decide (imageContent > 0)) ||
  decide (textContent < imageContent)

/-- `is_scanned_pdf` (pdf_utils.py lines 40–84): sample the first 3 pages,
decide scanned-ness by `scanDecision`, and default to `true` when PyMuPDF is
missing or anything raises. -/
def is_scanned_pdf (hasPyMuPDF : Bool) (env : ScanEnv) : Bool :=
  if ¬ hasPyMuPDF then true
  else
    match env.openDoc with
    | Except.error _ => true
    | Except.ok doc =>
      let sample := doc.pages.take (min 3 doc.pages.length)
      scanDecision (countTextPages sample) (countImagePages sample)

/-! ### Concrete documents and environments used as test inputs -/

/-- An ordinary one-page text document. -/
def docPlainText : PdfDoc :=
  { is_encrypted := false
    authEmpty := Except.ok false
    pages := [{ textStripLen := 150, imageCount := 0, rotation := 0, fonts := Except.ok [] }] }

/-- An encrypted document whose empty-password authentication succeeds. -/
def docEncryptedAuthOk : PdfDoc :=
  { is_encrypted := true
    authEmpty := Except.ok true
    pages := [{ textStripLen := 200, imageCount := 0, rotation := 0, fonts := Except.ok [] }] }

/-- A text document with four unusual font references on its one page. -/
def docUnusualFonts : PdfDoc :=
  { is_encrypted := false
    authEmpty := Except.ok false
    pages := [{ textStripLen := 200, imageCount := 0, rotation := 0,
                fonts := Except.ok ["Symbol1", "Symbol2", "ZapfDingbats", "Symbol3"] }] }

/-- A one-page document with one rotated page (rotation 90). -/
def docRotated : PdfDoc :=
  { is_encrypted := false
    authEmpty := Except.ok false
    pages := [{ textStripLen := 200, imageCount := 0, rotation := 90, fonts := Except.ok [] }] }

/-- A one-page document with both substantial text and an embedded image. -/
def docTextAndImage : PdfDoc :=
  { is_encrypted := false
    authEmpty := Except.ok false
    pages := [{ textStripLen := 150, imageCount := 1, rotation := 0, fonts := Except.ok [] }] }

/-- A 1 MiB file whose open yields the encrypted-then-authenticated doc. -/
def envEncryptedAuthOk : DetectEnv :=
  { getSizeBytes := Except.ok 1048576, openDoc := Except.ok docEncryptedAuthOk }

/-- An environment whose `os.path.getsize` call raises. -/
def envSizeRaises : DetectEnv :=
  { getSizeBytes := Except.error "getsize failed", openDoc := Except.ok docPlainText }

/-- A 1 MiB file with the unusual-fonts document. -/
def envUnusualFonts : DetectEnv :=
  { getSizeBytes := Except.ok 1048576, openDoc := Except.ok docUnusualFonts }

/-- A 1 MiB file with the rotated document. -/
def envRotated : DetectEnv :=
  { getSizeBytes := Except.ok 1048576, openDoc := Except.ok docRotated }

/-- A 1 MiB file with the text-plus-image document (detector view). -/
def envDetectTextImage : DetectEnv :=
  { getSizeBytes := Except.ok 1048576, openDoc := Except.ok docTextAndImage }

/-- The text-plus-image document (scan-fallback view). -/
def envScanTextImage : ScanEnv :=
  { openDoc := Except.ok docTextAndImage }

/-- A scan-fallback environment whose document open raises. -/
def envScanRaises : ScanEnv :=
  { openDoc := Except.error "fitz.open failed" }

/-! ## `pdf2md_wrapper.py`: the conversion backend chain

`PDF2MarkdownWrapper.markdown` (lines 73–157) tries up to four backends in
order and falls back to `_fallback_convert`.  Each backend call is modelled
as an `Except String (Option String)` drawn from the environment: `ok none`
models a backend that returned `None`, `ok (some s)` a backend that returned
text, `error e` a backend call that raised.  The local Python variable
`markdown_text` is modelled as `Option (Option String)`: `none` means the
variable was never assigned, so that evaluating `not markdown_text` raises
`UnboundLocalError` (which really happens at line 133 when `needs_ocr` is
false and the PyMuPDF block did not run). -/

/-- Python `str.title()` restricted to its behaviour on letters: the first
letter of each alphabetic run is uppercased, the rest lowercased. -/
def pyTitleAux : Bool → List Char → List Char
  | _, [] => []
  | prevAlpha, c :: rest =>
    if c.isAlpha then
      (if prevAlpha then c.toLower else c.toUpper) :: pyTitleAux true rest
    else c :: pyTitleAux false rest

/-- Python `str.title()`. -/
def pyTitle (s : String) : String :=
  ⟨pyTitleAux false s.data⟩

/-- `error.splitlines()[0]` for the non-empty error strings the wrapper
builds (an empty error string never occurs: every detail string starts with a
literal prefix). -/
def firstLineOf (s : String) : String :=
  (pyLines s).headD ""

/-- Data `_fallback_convert` (lines 511–582) reads from the outside world:
the basename and stem of the path, the formatted size and sniffed file type,
the current time, and whether the fallback body itself raises. -/
structure FallbackEnv where
  filename : String
  base : String
  sizeKbText : String
  fileType : String
  timestamp : String
  raises : Option String

/-- `_fallback_convert` (pdf2md_wrapper.py lines 511–582): the templated
stub, or the last-resort error line when even the template raises. -/
def fallback_convert (fe : FallbackEnv) (attempts : List (String × String)) : String :=
  match fe.raises with
  | some e =>
    "# Error Processing " ++ (fe.filename ++ ("\n\nFailed to convert file: " ++ e))
  | none =>
    let errorDetails :=
      if attempts.isEmpty then ""
      else "\n\n## Conversion Attempts\n\n" ++
        String.join (attempts.map (fun a =>
          "### " ++ pyTitle a.1 ++ " Conversion\n\n```\n" ++ firstLineOf a.2 ++ "\n```\n\n"))
    "# " ++ fe.base ++ "\n\n## Document Information\n\n- **Filename**: " ++ fe.filename ++
    "\n- **File Size**: " ++ fe.sizeKbText ++ " KB\n- **File Type**: " ++ fe.fileType ++
    "\n- **Conversion Timestamp**: " ++ fe.timestamp ++
    "\n- **Conversion Note**: This is a fallback conversion because OCR processing failed" ++
    "\n\n## Content\n\n*This document requires OCR processing with PyMuPDF or pytesseract.*" ++
    "\n*Ensure these libraries are properly installed in your Python environment for text extraction.*" ++
    "\n\n" ++ errorDetails ++ "\n"

/-- The availability flags probed in `PDF2MarkdownWrapper.__init__`. -/
structure WrapperAvail where
  pdf2md : Bool
  pymupdf : Bool
  pytesseract : Bool
  pdf2image : Bool

/-- Environment of one `markdown` call: file existence, the scan detection
result, one result per backend (the fallback PyMuPDF retry at lines 145–154
calls the same method on the same path, so it observes the same value), and
the fallback data. -/
structure WrapperEnv where
  avail : WrapperAvail
  fileExists : Bool
  scanned : Except String Bool
  gpt : Except String (Option String)
  pymupdfConv : Except String (Option String)
  pytessConv : Except String (Option String)
  fallbackEnv : FallbackEnv

/-- The acceptance test used after every backend (`markdown_text and
len(markdown_text.strip()) > 100`). -/
def acceptedResult (v : Option String) : Option String :=
  match v with
  | some s => if (pyStrip s.data).length > 100 then some s else none
  | none => none

/-- Python truthiness of `not markdown_text` for a bound `markdown_text`. -/
def pyFalsy (v : Option String) : Bool :=
  match v with
  | none => true
  | some s => s = ""

/-- Loop state of `markdown`: the `conversion_attempts` list and the
`markdown_text` variable (`none` = still unbound). -/
def AttState := List (String × String) × Option (Option String)

/-- One guarded backend block of `markdown`: when `run` holds, call the
backend; an accepted result returns early (`Sum.inl`), an insufficient one
binds `markdown_text`, and a raising one appends to `conversion_attempts`
and leaves `markdown_text` as it was. -/
def try_backend (run : Bool) (res : Except String (Option String))
    (nm detailPrefix : String) (st : AttState) : Sum String AttState :=
  if run then
    match res with
    | Except.ok v =>
      match acceptedResult v with
      | some s => Sum.inl s
      | none => Sum.inr (st.1, some v)
    | Except.error e => Sum.inr (st.1 ++ [(nm, detailPrefix ++ e)], st.2)
  else Sum.inr st

/-- `PDF2MarkdownWrapper.markdown` (pdf2md_wrapper.py lines 73–157).
`Except.error` models an exception escaping the method (only the
`UnboundLocalError` of line 133 can). -/
def wrapper_markdown (env : WrapperEnv) (force_ocr : Bool) (ocr_quality : String)
    (use_gpt : Bool) : Except String String :=
  if env.fileExists = false then Except.ok (fallback_convert env.fallbackEnv [])
  else
    let needs_ocr : Bool :=
      if force_ocr then true
      else match env.scanned with
        | Except.ok b => b
        | Except.error _ => true
    match try_backend (use_gpt && env.avail.pdf2md) env.gpt "gpt"
        "GPT-based conversion failed: " ([], none) with
    | Sum.inl md => Except.ok md
    | Sum.inr st1 =>
      match try_backend (!needs_ocr && env.avail.pymupdf) env.pymupdfConv "pymupdf"
          "PyMuPDF conversion failed: " st1 with
      | Sum.inl md => Except.ok md
      | Sum.inr st2 =>
        let cond3 : Except String Bool :=
          if needs_ocr then Except.ok true
          else match st2.2 with
            | none => Except.error
                "UnboundLocalError: local variable markdown_text referenced before assignment"
            | some v => Except.ok (pyFalsy v)
        match cond3 with
        | Except.error e => Except.error e
        | Except.ok c3 =>
          match try_backend (c3 && env.avail.pytesseract && env.avail.pdf2image)
              env.pytessConv "pytesseract" "Pytesseract OCR failed: " st2 with
          | Sum.inl md => Except.ok md
          | Sum.inr st3 =>
            match try_backend (needs_ocr && env.avail.pymupdf) env.pymupdfConv
                "pymupdf_fallback" "Fallback PyMuPDF conversion failed: " st3 with
            | Sum.inl md => Except.ok md
            | Sum.inr st4 => Except.ok (fallback_convert env.fallbackEnv st4.1)

/-- The metadata block appended by `convert_pdf_to_markdown`
(pdf2md_wrapper.py lines 615–626). -/
def conversion_info (force_ocr : Bool) (ocr_quality : String) (use_gpt : Bool)
    (timestamp conversionTime : String) : String :=
  "\n\n---\n\n*Document converted by JFK Files PDF2Markdown converter at " ++
  (timestamp ++
   ("*\n*OCR: " ++
    ((if force_ocr then "Enabled" else "Auto") ++
     ("*\n*Quality: " ++
      (ocr_quality ++
       ("*\n*GPT-assisted: " ++
        ((if use_gpt then "Yes" else "No") ++
         ("*\n*Conversion time: " ++ (conversionTime ++ " seconds*\n\n")))))))))

/-- `convert_pdf_to_markdown` (pdf2md_wrapper.py lines 584–639).
`output_write = none` models `output_path=None`; `some none` a successful
file write; `some (some e)` a raising write.  Every escaping exception is
caught and converted into the error stub with the basename and message. -/
def convert_pdf_to_markdown (env : WrapperEnv) (timestamp conversionTime : String)
    (output_write : Option (Option String)) (force_ocr : Bool) (ocr_quality : String)
    (use_gpt : Bool) : String :=
  match wrapper_markdown env force_ocr ocr_quality use_gpt with
  | Except.error e =>
    "# Error Converting " ++ (env.fallbackEnv.filename ++ ("\n\nUnhandled exception: " ++ e))
  | Except.ok md =>
    match output_write with
    | some (some e) =>
      "# Error Converting " ++ (env.fallbackEnv.filename ++ ("\n\nUnhandled exception: " ++ e))
    | _ => md ++ conversion_info force_ocr ocr_quality use_gpt timestamp conversionTime

/-- A concrete fallback environment. -/
def fbEnvDoc : FallbackEnv :=
  { filename := "doc.pdf", base := "doc", sizeKbText := "12.0"
    fileType := "PDF (version 1.4)", timestamp := "2025-03-18 12:00:00", raises := none }

/-- A wrapper environment with no backend available and a digital PDF: the
third block then evaluates the never-assigned `markdown_text` and raises. -/
def envWrapperUnbound : WrapperEnv :=
  { avail := { pdf2md := false, pymupdf := false, pytesseract := false, pdf2image := false }
    fileExists := true
    scanned := Except.ok false
    gpt := Except.ok none
    pymupdfConv := Except.ok none
    pytessConv := Except.ok none
    fallbackEnv := fbEnvDoc }

/-! ## `format_gpt_json.py`: knowledge-base aggregation

`format_for_gpt` (lines 88–184) walks the consolidated JSON array, skips a
leading metadata entry, skips entries that are not document dicts, dedups on
`document_id`, and prepends a metadata element whose `document_count` is the
number of unique documents kept.  JSON values are modelled structurally:
`Option (Option String)` is key presence (outer) and Python `None` (inner
`none`); a page title/content collapses presence-of-key and `None` into one
`Option`, which has identical truthiness behaviour. -/

/-- One element of a document's `pages` array. -/
structure JPage where
  title : Option String
  content : Option String
deriving Repr, DecidableEq

/-- One element of the consolidated input array. -/
structure JEntry where
  isDict : Bool
  hasMetaKey : Bool
  docIdKey : Option (Option String)
  metaTitle : Option (Option String)
  metaConvTs : Option (Option String)
  metaMethod : Option (Option String)
  totalPages : Option Nat
  pages : List JPage
deriving Repr, DecidableEq

/-- Python `d.get(key, default)` on a modelled optional key. -/
def pyGet (key : Option (Option String)) (default : Option String) : Option String :=
  key.getD default

/-- `entry.get('document_id')`. -/
def docIdOf (e : JEntry) : Option String :=
  pyGet e.docIdKey none

/-- One formatted `doc_entry` of the output array (lines 144–155). -/
structure DocOut where
  id : Option String
  title : Option String
  content : String
  source : String
  timestamp : Option String
  total_pages : Nat
  conversion_method : Option String
deriving Repr, DecidableEq

/-- The metadata element of the output array (lines 104–111, 177–178). -/
structure GptMeta where
  knowledge_base_name : String
  description : String
  document_count : Nat
  created_at : String
  version : String
deriving Repr, DecidableEq

/-- The output array: the metadata element followed by the documents
(`gpt_formatted_data.insert(0, metadata)`). -/
structure GptResult where
  meta : GptMeta
  docs : List DocOut
deriving Repr, DecidableEq

/-- The content chunks one page contributes (lines 158–169): an optional
`## title` when the title is truthy and not `"Unknown"`, then the stripped
page content, with a leading `# {doc_id}` header dropped. -/
def pageChunks (docId : Option String) (p : JPage) : List String :=
  (match p.title with
   | some t => if t ≠ "" ∧ t ≠ "Unknown" then ["## " ++ t] else []
   | none => []) ++
  (match p.content with
   | some c =>
     if c ≠ "" then
       let hdr := "# " ++ pyStr docId
       let pc := if hdr.data.isPrefixOf c.data then ⟨pyLStrip (c.data.drop hdr.data.length)⟩ else c
       [pyStripS pc]
     else []
   | none => [])

/-- The formatted document entry built from one input entry. -/
def mkDocOut (e : JEntry) : DocOut :=
  let docId := docIdOf e
  { id := docId
    title := pyGet e.metaTitle docId
    content := pyStripS (String.intercalate "\n\n" ((e.pages.map (pageChunks docId)).flatten))
    source := pyStr docId ++ ".json"
    timestamp := pyGet e.metaConvTs (some "")
    total_pages := e.totalPages.getD 0
    conversion_method := pyGet e.metaMethod (some "unknown") }

/-- One iteration of the `for i, entry in enumerate(input_data)` loop
(lines 117–175): skip a leading metadata dict, skip non-document entries,
skip already-seen ids, otherwise record the id and append the formatted
document. -/
def entryStep (isFirst : Bool) (st : List (Option String) × List DocOut) (e : JEntry) :
    List (Option String) × List DocOut :=
  if isFirst ∧ e.isDict = true ∧ e.hasMetaKey = true then st
  else if ¬ (e.isDict = true ∧ e.docIdKey ≠ none) then st
  else if docIdOf e ∈ st.1 then st
  else (docIdOf e :: st.1, st.2 ++ [mkDocOut e])

/-- The loop over all entries, tracking whether we are at index 0. -/
def entriesLoop : Bool → (List (Option String) × List DocOut) → List JEntry →
    List (Option String) × List DocOut
  | _, st, [] => st
  | isFirst, st, e :: rest => entriesLoop false (entryStep isFirst st e) rest

/-- `format_for_gpt` (format_gpt_json.py lines 88–184). -/
def format_for_gpt (createdAt : String) (input : List JEntry) : GptResult :=
  let st := entriesLoop true ([], []) input
  { meta :=
      { knowledge_base_name := "JFK Files Archive"
        description := "Declassified documents from the JFK Assassination Records Collection"
        document_count := st.1.length
        created_at := createdAt
        version := "1.0" }
    docs := st.2 }

/-- A leading metadata entry of the consolidated file. -/
def metaHeadEntry : JEntry :=
  { isDict := true, hasMetaKey := true, docIdKey := none, metaTitle := none
    metaConvTs := none, metaMethod := none, totalPages := none, pages := [] }

/-- A document entry with the given id and one untitled page of content. -/
def mkSimpleDoc (docId content : String) : JEntry :=
  { isDict := true, hasMetaKey := true, docIdKey := some (some docId)
    metaTitle := none, metaConvTs := none, metaMethod := none
    totalPages := some 1
    pages := [{ title := none, content := some content }] }

/-! ## `convert_to_markdown_or_json` (conversion_utils.py lines 202–272)

The shared driver of `pdf_to_markdown` and `markdown_to_json`.  The file
system is a map from path to file text; the actual converters and the JSON
(de)serializer are oracles, since this claim is about the short-circuit on an
already-existing output file.  `json.load` is partial: on a file that is not
valid JSON it raises, and the surrounding `except Exception` turns that into
the `(None, None)` return. -/

/-- A file system: path to file text. -/
def FileSys := String → Option String

/-- The collaborators `convert_to_markdown_or_json` calls into, parametric in
the JSON value type `J`. -/
structure ConvOracles (J : Type) where
  jsonLoad : String → Option J
  jsonDump : J → String
  pdfConv : String → Bool → String → Except String String
  mdToJson : String → String → Except String J

/-- The second component of the returned pair: markdown text or a parsed
JSON value. -/
inductive OutContent (J : Type) where
  | md (s : String)
  | js (j : J)
deriving Repr, DecidableEq

/-- Write-to-temp-then-rename, net effect on the file system. -/
def fsUpdate (fs : FileSys) (p : String) (v : String) : FileSys :=
  fun q => if q = p then some v else fs q

/-- `convert_to_markdown_or_json` (conversion_utils.py lines 202–272),
returning the (possibly updated) file system and the `(path, content)` pair;
`(fs, none)` models the `(None, None)` return of the exception handler. -/
def convert_to_markdown_or_json {J : Type} (o : ConvOracles J) (fs : FileSys)
    (input_path output_dir output_format : String) (force_ocr : Bool)
    (ocr_quality : String) : FileSys × Option (String × OutContent J) :=
  let body : Except String (FileSys × Option (String × OutContent J)) := do
    let input_filename := pyBasename input_path
    let base_filename := (pySplitExt input_filename).1
    let output_filename ←
      if output_format = "markdown" then Except.ok (base_filename ++ ".md")
      else if output_format = "json" then Except.ok (base_filename ++ ".json")
      else Except.error "ValueError: Invalid output_format. Must be markdown or json."
    let output_path := pyJoin output_dir output_filename
    match fs output_path with
    | some existing =>
      if output_format = "json" then
        match o.jsonLoad existing with
        | some j => Except.ok (fs, some (output_path, OutContent.js j))
        | none => Except.error "json.JSONDecodeError"
      else Except.ok (fs, some (output_path, OutContent.md existing))
    | none => do
      let content ←
        if output_format = "markdown" then
          match o.pdfConv input_path force_ocr ocr_quality with
          | Except.ok s => Except.ok (OutContent.md s)
          | Except.error e => Except.error e
        else
          match o.mdToJson input_path base_filename with
          | Except.ok j => Except.ok (OutContent.js j)
          | Except.error e => Except.error e
      let serialized :=
        match content with
        | OutContent.md s => s
        | OutContent.js j => o.jsonDump j
      Except.ok (fsUpdate fs output_path serialized, some (output_path, content))
  match body with
  | Except.ok r => r
  | Except.error _ => (fs, none)

/-- Oracles whose JSON parser rejects everything (its behaviour on the one
string it is fed, `"not json"`, which `json.load` does reject). -/
def oraclesNoParse : ConvOracles Unit :=
  { jsonLoad := fun _ => none
    jsonDump := fun _ => "null"
    pdfConv := fun _ _ _ => Except.ok "# md"
    mdToJson := fun _ _ => Except.ok () }

/-- A file system holding one corrupt pre-existing output file. -/
def fsCorruptJson : FileSys :=
  fun p => if p = "json/doc.json" then some "not json" else none

/-! ## `_convert_markdown_to_json` (conversion_utils.py lines 551–788)

The Markdown-to-JSON mapper.  Its regexes (all searched with
`re.IGNORECASE`) are embedded as bespoke character-list matchers; captures
are rebuilt from the original characters, so the original case survives as
in Python.  The `except` handler at lines 771–788 first calls
`traceback.format_exc()` — but `conversion_utils.py` never imports
`traceback`, so the handler itself raises `NameError` and the internal
exception escapes to the caller instead of the documented error record. -/

/-- Case-insensitive prefix test against an already-lowercase literal. -/
def ciPrefix : List Char → List Char → Bool
  | [], _ => true
  | _ :: _, [] => false
  | a :: as, b :: bs => a = b.toLower && ciPrefix as bs

/-- Try a list of already-lowercase literals in order at this position,
returning the matched original characters and the rest (regex alternation of
plain literals). -/
def tryLits : List (List Char) → List Char → Option (List Char × List Char)
  | [], _ => none
  | nm :: rest, l =>
    if ciPrefix nm l then some (l.take nm.length, l.drop nm.length)
    else tryLits rest l

/-- Leftmost `re.search`: try the position matcher at every position. -/
def searchWith (f : List Char → Option (List Char)) : List Char → Option (List Char)
  | [] => none
  | c :: rest =>
    match f (c :: rest) with
    | some g => some g
    | none => searchWith f rest

/-- `re.match(r'^(\d+-\d+-\d+)', title)`: the captured prefix. -/
def match_jfk_id (l : List Char) : Option (List Char) :=
  let s1 := l.span Char.isDigit
  if s1.1.isEmpty then none
  else
    match s1.2 with
    | c1 :: rest2 =>
      if c1 = '-' then
        let s2 := rest2.span Char.isDigit
        if s2.1.isEmpty then none
        else
          match s2.2 with
          | c2 :: rest4 =>
            if c2 = '-' then
              let s3 := rest4.span Char.isDigit
              if s3.1.isEmpty then none
              else some (s1.1 ++ c1 :: s2.1 ++ c2 :: s3.1)
            else none
          | [] => none
      else none
    | [] => none

/-- `re.search(r'docid[-\s]?(\d+)', ...)` at one position of the lowered
title: after the literal, an optional `-`/whitespace, then the captured
digits (the optional character is not a digit, so failed backtracking into
the empty option cannot succeed). -/
def matchDocidAt (l : List Char) : Option (List Char) :=
  if ("docid".data).isPrefixOf l then
    match l.drop 5 with
    | c :: r2 =>
      if c = '-' || pyIsSpace c then
        let s := r2.span Char.isDigit
        if s.1.isEmpty then none else some s.1
      else
        let s := (c :: r2).span Char.isDigit
        if s.1.isEmpty then none else some s.1
    | [] => none
  else none

/-- The docId derivation (conversion_utils.py lines 567–580). -/
def deriveDocId (title : String) : String :=
  match match_jfk_id title.data with
  | some m => ⟨m⟩
  | none =>
    if containsSub ("docid".data) (pyLower title.data) then
      match searchWith matchDocidAt (pyLower title.data) with
      | some ds => "docid-" ++ ⟨ds⟩
      | none => title
    else title

/-- One section being accumulated (the Python `current_section` dict; the
initial title-less dict is never emitted, its level is irrelevant). -/
structure SecAcc where
  title : String
  level : Nat
  content : List String
deriving Repr, DecidableEq

/-- `re.match(r'^(#{1,6})\s+(.+)$', line)` on one line: the level and the
raw second group.  When everything after the hashes is whitespace,
backtracking leaves the final whitespace character as the group (it must
exist and the whitespace run must have length at least 2). -/
def matchHeader16 (line : String) : Option (Nat × String) :=
  let p := takeHashes line.data
  if 1 ≤ p.1 ∧ p.1 ≤ 6 then
    let s := p.2.span pyIsSpace
    if s.1.isEmpty then none
    else if s.2.isEmpty then
      if s.1.length ≥ 2 then some (p.1, ⟨s.1.drop (s.1.length - 1)⟩) else none
    else some (p.1, ⟨s.2⟩)
  else none

/-- `re.match(r'^#+\s+Page\s+(\d+)', line, re.IGNORECASE)`: the captured
page digits. -/
def matchPageMarker (line : String) : Option (List Char) :=
  let p := takeHashes line.data
  if p.1 ≥ 1 then
    let s := p.2.span pyIsSpace
    if s.1.isEmpty then none
    else if ciPrefix ("page".data) s.2 then
      let s2 := (s.2.drop 4).span pyIsSpace
      if s2.1.isEmpty then none
      else
        let s3 := s2.2.span Char.isDigit
        if s3.1.isEmpty then none else some s3.1
    else none
  else none

/-- State of the first-pass section loop (lines 609–616). -/
structure MapState where
  sections : List SecAcc
  current : SecAcc
  inBlock : Bool
  markers : Nat
deriving Repr, DecidableEq

/-- One iteration of the section loop (lines 618–666). -/
def sectionStep (st : MapState) (line : String) : MapState :=
  if ("```".data).isPrefixOf (pyStrip line.data) then
    let markers := st.markers + 1
    let current :=
      if st.current.title ≠ "" then
        { st.current with content := st.current.content ++ [line] }
      else st.current
    { st with markers := markers, inBlock := markers % 2 = 1, current := current }
  else if st.inBlock then
    if st.current.title ≠ "" then
      { st with current := { st.current with content := st.current.content ++ [line] } }
    else st
  else
    match matchHeader16 line with
    | some lg =>
      let sections :=
        if st.current.title ≠ "" ∧ st.current.content ≠ [] then st.sections ++ [st.current]
        else st.sections
      let title :=
        match matchPageMarker line with
        | some ds => "Page " ++ ⟨ds⟩
        | none => pyStripS lg.2
      { st with sections := sections
                current := { title := title, level := lg.1, content := [] } }
    | none =>
      if pyStripS line ≠ "" then
        if st.current.title ≠ "" then
          { st with current := { st.current with content := st.current.content ++ [line] } }
        else if st.sections = [] then
          { st with current := { title := "Document Content", level := 1, content := [line] } }
        else st
      else
        if st.current.title ≠ "" ∧ st.current.content ≠ [] then
          { st with current := { st.current with content := st.current.content ++ [line] } }
        else st

/-- The metadata search text: the first three sections' titles and contents
joined with newlines (lines 707–708). -/
def searchTextOf (sections : List SecAcc) : List Char :=
  (String.intercalate "\n"
    ((sections.take 3).map
      (fun s => s.title ++ "\n" ++ String.intercalate "\n" s.content))).data

/-- `\d{1,2}` followed by a separator from the class, with the regex's
greedy-then-backtrack order (digits and separators are disjoint, so the
backtracking branch cannot succeed). -/
def matchD12Sep (sepOk : Char → Bool) : List Char → Option (List Char × List Char)
  | a :: rest =>
    if a.isDigit then
      match rest with
      | b :: rest2 =>
        if b.isDigit then
          match rest2 with
          | c :: rest3 => if sepOk c then some ([a, b, c], rest3) else none
          | [] => none
        else if sepOk b then some ([a, b], rest2)
        else none
      | [] => none
    else none
  | [] => none

/-- Trailing `\d{2,4}` (greedy, nothing after it in the group). -/
def matchD24 (l : List Char) : Option (List Char) :=
  let s := l.span Char.isDigit
  if s.1.length ≥ 2 then some (s.1.take 4) else none

/-- The lowered month-name literals of the second date pattern, in the
pattern's alternation order. -/
def monthNames : List (List Char) :=
  ["january".data, "february".data, "march".data, "april".data, "may".data,
   "june".data, "july".data, "august".data, "september".data, "october".data,
   "november".data, "december".data]

/-- Date pattern 1 at one position:
`(?:Date|Dated):\s*(...)` with slash-or-dash separated day/month/year
digit groups. -/
def matchDate1At (l : List Char) : Option (List Char) :=
  let sepOk : Char → Bool := fun c => c = '/' || c = '-'
  let tailMatch : List Char → Option (List Char) := fun r =>
    match r with
    | c :: r2 =>
      if c = ':' then
        let r3 := r2.dropWhile pyIsSpace
        match matchD12Sep sepOk r3 with
        | some p1 =>
          match matchD12Sep sepOk p1.2 with
          | some p2 =>
            match matchD24 p2.2 with
            | some d3 => some (p1.1 ++ p2.1 ++ d3)
            | none => none
          | none => none
        | none => none
      else none
    | [] => none
  if ciPrefix ("date".data) l then
    match tailMatch (l.drop 4) with
    | some g => some g
    | none => if ciPrefix ("dated".data) l then tailMatch (l.drop 5) else none
  else none

/-- Date pattern 2 at one position:
`(\d{1,2}\s+(?:January|...|December)\s+\d{4})`. -/
def matchDate2At (l : List Char) : Option (List Char) :=
  let s := l.span Char.isDigit
  if 1 ≤ s.1.length ∧ s.1.length ≤ 2 then
    let w1 := s.2.span pyIsSpace
    if w1.1.isEmpty then none
    else
      match tryLits monthNames w1.2 with
      | some mon =>
        let w2 := mon.2.span pyIsSpace
        if w2.1.isEmpty then none
        else
          let d2 := w2.2.span Char.isDigit
          if d2.1.length ≥ 4 then
            some (s.1 ++ w1.1 ++ mon.1 ++ w2.1 ++ d2.1.take 4)
          else none
      | none => none
  else none

/-- Date pattern 3 at one position: `(\d{1,2}/\d{1,2}/\d{2,4})`. -/
def matchDate3At (l : List Char) : Option (List Char) :=
  let sepOk : Char → Bool := fun c => c = '/'
  match matchD12Sep sepOk l with
  | some p1 =>
    match matchD12Sep sepOk p1.2 with
    | some p2 =>
      match matchD24 p2.2 with
      | some d3 => some (p1.1 ++ p2.1 ++ d3)
      | none => none
    | none => none
  | none => none

/-- Date extraction: the three patterns tried in order, each searched over
the whole text (lines 688–715). -/
def extractDate (text : List Char) : Option String :=
  match searchWith matchDate1At text with
  | some g => some ⟨g⟩
  | none =>
    match searchWith matchDate2At text with
    | some g => some ⟨g⟩
    | none => (searchWith matchDate3At text).map (fun g => (⟨g⟩ : String))

/-- Classification pattern 1 at one position:
`(?:Classification|Classified):\s*(\w+\s+\w+|\w+)` (word and space classes
are disjoint, so the two-word alternative fails exactly when no space-word
follows, and the one-word alternative is the greedy word run). -/
def matchClass1At (l : List Char) : Option (List Char) :=
  let tailMatch : List Char → Option (List Char) := fun r =>
    match r with
    | c :: r2 =>
      if c = ':' then
        let r3 := r2.dropWhile pyIsSpace
        let w1 := r3.span isWordChar
        if w1.1.isEmpty then none
        else
          let ws := w1.2.span pyIsSpace
          if ws.1.isEmpty then some w1.1
          else
            let w2 := ws.2.span isWordChar
            if w2.1.isEmpty then some w1.1
            else some (w1.1 ++ ws.1 ++ w2.1)
      else none
    | [] => none
  if ciPrefix ("classification".data) l then
    match tailMatch (l.drop 14) with
    | some g => some g
    | none => if ciPrefix ("classified".data) l then tailMatch (l.drop 10) else none
  else if ciPrefix ("classified".data) l then tailMatch (l.drop 10)
  else none

/-- Classification pattern 2 at one position:
`(CONFIDENTIAL|SECRET|TOP SECRET|UNCLASSIFIED)`. -/
def matchClass2At (l : List Char) : Option (List Char) :=
  (tryLits ["confidential".data, "secret".data, "top secret".data,
            "unclassified".data] l).map (fun p => p.1)

/-- Classification extraction with the final `.upper()` (lines 694–722). -/
def extractClassification (text : List Char) : Option String :=
  match searchWith matchClass1At text with
  | some g => some ⟨pyUpper g⟩
  | none => (searchWith matchClass2At text).map (fun g => (⟨pyUpper g⟩ : String))

/-- Agency pattern 1 at one position:
`(?:Agency|From|Originator):\s*([\w\s]+)`. -/
def matchAgency1At (l : List Char) : Option (List Char) :=
  let tailMatch : List Char → Option (List Char) := fun r =>
    match r with
    | c :: r2 =>
      if c = ':' then
        let r3 := r2.dropWhile pyIsSpace
        let g := r3.span (fun c => isWordChar c || pyIsSpace c)
        if g.1.isEmpty then none else some g.1
      else none
    | [] => none
  if ciPrefix ("agency".data) l then tailMatch (l.drop 6)
  else if ciPrefix ("from".data) l then tailMatch (l.drop 4)
  else if ciPrefix ("originator".data) l then tailMatch (l.drop 10)
  else none

/-- Agency pattern 2 at one position: `(CIA|FBI|HSCA|NSA|DOS|DOD)`. -/
def matchAgency2At (l : List Char) : Option (List Char) :=
  (tryLits ["cia".data, "fbi".data, "hsca".data, "nsa".data,
            "dos".data, "dod".data] l).map (fun p => p.1)

/-- Agency extraction with the final `.strip()` (lines 700–729). -/
def extractAgency (text : List Char) : Option String :=
  match searchWith matchAgency1At text with
  | some g => some ⟨pyStrip g⟩
  | none => (searchWith matchAgency2At text).map (fun g => (⟨pyStrip g⟩ : String))

/-- `re.sub(r'\n{3,}', '\n\n', text)`: runs of three or more newlines
collapse to two (the state counts preceding consecutive newlines). -/
def collapseNLAux : Nat → List Char → List Char
  | _, [] => []
  | k, c :: rest =>
    if c = '\n' then
      if k ≥ 2 then collapseNLAux k rest else c :: collapseNLAux (k + 1) rest
    else c :: collapseNLAux 0 rest

/-- Collapse 3-or-more newline runs to exactly two. -/
def collapseNewlines (l : List Char) : List Char :=
  collapseNLAux 0 l

/-- The mapper's metadata dict (optional keys as `Option`). -/
structure DocMetadata where
  source : String
  collection : String
  format : String
  conversion_timestamp : String
  pages : Option Nat
  warning : Option String
  error : Option String
  date : Option String
  classification : Option String
  agency : Option String
deriving Repr, DecidableEq

/-- One output section. -/
structure DocSection where
  title : String
  level : Nat
  content : String
deriving Repr, DecidableEq

/-- The mapper's output record. -/
structure DocumentRecord where
  docId : String
  title : String
  metadata : DocMetadata
  sections : List DocSection
  fullText : String
deriving Repr, DecidableEq

/-- The pure part of the mapper after the file read (lines 567–769):
docId derivation, the empty-content early return, the section pass with its
fallback, metadata extraction, and record assembly. -/
def build_document_record (content : String) (title : String) (ts : String) :
    DocumentRecord :=
  let doc_id := deriveDocId title
  if content.data.isEmpty || (pyStrip content.data).isEmpty then
    { docId := doc_id, title := title
      metadata :=
        { source := "National Archives", collection := "JFK Files"
          format := "PDF to Markdown to JSON", conversion_timestamp := ts
          pages := none, warning := some "Empty source file", error := none
          date := none, classification := none, agency := none }
      sections := [], fullText := "" }
  else
    let lines := pyLines content
    let st0 : MapState :=
      { sections := [], current := { title := "", level := 1, content := [] }
        inBlock := false, markers := 0 }
    let stF := lines.foldl sectionStep st0
    let sections1 :=
      if stF.current.title ≠ "" ∧ stF.current.content ≠ [] then
        stF.sections ++ [stF.current]
      else stF.sections
    let sections :=
      if sections1 = [] then
        [{ title := "Document Content", level := 1, content := pyLines content }]
      else sections1
    let searchText := searchTextOf sections
    { docId := doc_id, title := title
      metadata :=
        { source := "National Archives", collection := "JFK Files"
          format := "PDF to Markdown to JSON", conversion_timestamp := ts
          pages := some ((sections.filter
            (fun s => containsSub ("Page".data) s.title.data)).length)
          warning := none, error := none
          date := extractDate searchText
          classification := extractClassification searchText
          agency := extractAgency searchText }
      sections := sections.map (fun s =>
        { title := s.title, level := s.level
          content := ⟨collapseNewlines (String.intercalate "\n" s.content).data⟩ })
      fullText := content }

/-- `_convert_markdown_to_json` (conversion_utils.py lines 551–788).  The
`except` handler evaluates `traceback.format_exc()` with `traceback` never
imported, so every internal exception is replaced by an escaping
`NameError` — the function raises instead of returning the error record. -/
def convert_markdown_to_json (fs : FileSys) (markdown_path : String)
    (titleArg : Option String) (ts : String) : Except String DocumentRecord :=
  let body : Except String DocumentRecord :=
    match fs markdown_path with
    | none => Except.error ("FileNotFoundError: " ++ markdown_path)
    | some content =>
      let title := titleArg.getD (pySplitExt (pyBasename markdown_path)).1
      Except.ok (build_document_record content title ts)
  match body with
  | Except.ok r => Except.ok r
  | Except.error _ => Except.error "NameError: name \x27traceback\x27 is not defined"

end JFK

namespace JFK

/-- C8: for every input string, `validate_markdown_quality` returns a score in
`[0,1]`; on the non-short-circuit path the score equals the unweighted mean of
the three independent sub-scores, and for empty (or whitespace-only) input the
result is exactly score `0` with issues `["Empty content"]`. -/
theorem validate_markdown_quality_score_ok (s : String) :
    0 ≤ (validate_markdown_quality s).score ∧
    (validate_markdown_quality s).score ≤ 1 ∧
    (¬ (s.data.isEmpty || (pyStrip s.data).isEmpty) = true →
      (validate_markdown_quality s).score =
        (garbledSubscore s + structureSubscore s + blankLineSubscore s) / 3) ∧
    ((s.data.isEmpty || (pyStrip s.data).isEmpty) = true →
      validate_markdown_quality s = { score := 0, issues := ["Empty content"] }) := by
  unfold validate_markdown_quality garbledSubscore structureSubscore blankLineSubscore
  split_ifs with h0 h1 h2 h3 <;> simp_all <;> norm_num

/-- C7 counterexample: on the spec's own concrete scenario the output of
`post_process_markdown` still contains a run of four consecutive newlines, so
the function does not collapse runs of three or more newlines to two. -/
theorem post_process_markdown_newline_run_survives :
    containsSub ("\n\n\n".data)
      ((post_process_markdown "Section  l\n\n\n\nMore" true).data) = true := by
  decide

/-- C7 amended: on the concrete scenario the output contains `"Section 1"`
(the OCR whole-word fixes apply), but blank-line runs pass through unchanged:
the output is exactly `"Section 1\n\n\n\nMore"`.  The collapse of three or
more newlines to two is performed elsewhere (in the Markdown-to-JSON mapper's
per-section normalization), not by `post_process_markdown`. -/
theorem post_process_markdown_concrete_scenario :
    post_process_markdown "Section  l\n\n\n\nMore" true = "Section 1\n\n\n\nMore" ∧
    containsSub ("Section 1".data)
      ((post_process_markdown "Section  l\n\n\n\nMore" true).data) = true := by
  constructor
  · rfl
  · decide

/-- Helper: `sizeStep` preserves the weakened rare-format invariant. -/
theorem sizeStep_inv (m : ℚ) (r : FormatReport)
    (h : r.rare_format_type ≠ none → r.rare_format_type ≠ some RareFormatType.encrypted →
         r.is_rare_format = true) :
    (sizeStep m r).rare_format_type ≠ none →
    (sizeStep m r).rare_format_type ≠ some RareFormatType.encrypted →
    (sizeStep m r).is_rare_format = true := by
  unfold sizeStep
  split_ifs <;> simp_all

/-- Helper: `encryptStep` preserves the weakened rare-format invariant (the
authenticated branch leaves `rare_format_type = encrypted`, which the
weakened invariant excludes). -/
theorem encryptStep_inv (doc : PdfDoc) (r : FormatReport)
    (h : r.rare_format_type ≠ none → r.rare_format_type ≠ some RareFormatType.encrypted →
         r.is_rare_format = true) :
    (encryptStep doc r).rare_format_type ≠ none →
    (encryptStep doc r).rare_format_type ≠ some RareFormatType.encrypted →
    (encryptStep doc r).is_rare_format = true := by
  unfold encryptStep
  split_ifs with henc
  · cases hauth : doc.authEmpty with
    | ok b => cases b <;> simp [hauth]
    | error u => simp [hauth]
  · exact h

/-- Helper: `pageCountStep` preserves the weakened rare-format invariant. -/
theorem pageCountStep_inv (n : Nat) (r : FormatReport)
    (h : r.rare_format_type ≠ none → r.rare_format_type ≠ some RareFormatType.encrypted →
         r.is_rare_format = true) :
    (pageCountStep n r).rare_format_type ≠ none →
    (pageCountStep n r).rare_format_type ≠ some RareFormatType.encrypted →
    (pageCountStep n r).is_rare_format = true := by
  unfold pageCountStep
  split_ifs <;> simp_all

/-- Helper: `ocrDecideStep` does not touch the rare-format fields. -/
theorem ocrDecideStep_inv (t i : Nat) (r : FormatReport)
    (h : r.rare_format_type ≠ none → r.rare_format_type ≠ some RareFormatType.encrypted →
         r.is_rare_format = true) :
    (ocrDecideStep t i r).rare_format_type ≠ none →
    (ocrDecideStep t i r).rare_format_type ≠ some RareFormatType.encrypted →
    (ocrDecideStep t i r).is_rare_format = true := by
  unfold ocrDecideStep
  split_ifs <;> simp_all

/-- Helper: `rotationStep` preserves the weakened rare-format invariant. -/
theorem rotationStep_inv (rot pc : Nat) (r : FormatReport)
    (h : r.rare_format_type ≠ none → r.rare_format_type ≠ some RareFormatType.encrypted →
         r.is_rare_format = true) :
    (rotationStep rot pc r).rare_format_type ≠ none →
    (rotationStep rot pc r).rare_format_type ≠ some RareFormatType.encrypted →
    (rotationStep rot pc r).is_rare_format = true := by
  unfold rotationStep
  split_ifs <;> simp_all

/-- Helper: `fontStep` preserves the weakened rare-format invariant. -/
theorem fontStep_inv (n : Nat) (r : FormatReport)
    (h : r.rare_format_type ≠ none → r.rare_format_type ≠ some RareFormatType.encrypted →
         r.is_rare_format = true) :
    (fontStep n r).rare_format_type ≠ none →
    (fontStep n r).rare_format_type ≠ some RareFormatType.encrypted →
    (fontStep n r).is_rare_format = true := by
  unfold fontStep
  split_ifs <;> simp_all

/-- C4 counterexample: on an encrypted document that authenticates with the
empty password, the report keeps `rare_format_type = encrypted` while
`is_rare_format` is cleared to `false`, violating the claimed invariant. -/
theorem detect_encrypted_auth_ok_breaks_invariant :
    (detect_document_format true envEncryptedAuthOk).rare_format_type =
      some RareFormatType.encrypted ∧
    (detect_document_format true envEncryptedAuthOk).is_rare_format = false := by
  norm_num [detect_document_format, detect_core, envEncryptedAuthOk, docEncryptedAuthOk,
    initialReport, sizeStep, encryptStep, pageCountStep, ocrDecideStep, rotationStep, fontStep,
    countTextPages, countImagePages, countRotatedPages, countUnusualFonts,
    Bind.bind, Except.bind, pure, Except.pure]

/-- Helper: any report produced by the `try` body satisfies the weakened
invariant. -/
theorem detect_core_inv (env : DetectEnv) (r : FormatReport)
    (hc : detect_core env = Except.ok r) :
    r.rare_format_type ≠ none → r.rare_format_type ≠ some RareFormatType.encrypted →
    r.is_rare_format = true := by
  unfold detect_core at hc
  cases hsz : env.getSizeBytes with
  | error e => rw [hsz] at hc; simp [Bind.bind, Except.bind] at hc
  | ok bytes =>
    cases hdoc : env.openDoc with
    | error e => rw [hsz, hdoc] at hc; simp [Bind.bind, Except.bind] at hc
    | ok doc =>
      rw [hsz, hdoc] at hc
      simp only [Bind.bind, Except.bind, pure, Except.pure, Except.ok.injEq] at hc
      subst hc
      exact fontStep_inv _ _ (rotationStep_inv _ _ _ (ocrDecideStep_inv _ _ _
        (pageCountStep_inv _ _ (encryptStep_inv _ _ (sizeStep_inv _ _
          (by intro h1 _; simp [initialReport] at h1))))))

/-- C4 amended: the invariant `rareFormatKind ≠ None → isRareFormat = true`
holds on every code path except the encrypted-then-authenticated one, i.e. it
holds whenever the final kind is not `encrypted`. -/
theorem detect_rare_invariant_except_encrypted (hasPyMuPDF : Bool) (env : DetectEnv) :
    (detect_document_format hasPyMuPDF env).rare_format_type ≠ none →
    (detect_document_format hasPyMuPDF env).rare_format_type ≠ some RareFormatType.encrypted →
    (detect_document_format hasPyMuPDF env).is_rare_format = true := by
  by_cases hlib : hasPyMuPDF = true
  · cases hc : detect_core env with
    | error e => simp [detect_document_format, hlib, hc, detectErrorReport]
    | ok r =>
      have h := detect_core_inv env r hc
      simpa [detect_document_format, hlib, hc] using h
  · intro h1 _
    simp [detect_document_format, hlib, detectNoLibReport] at h1

/-- Helper: full evaluation of the detector on the rotated-document input. -/
theorem envRotated_rare_format_type :
    (detect_document_format true envRotated).rare_format_type =
      some RareFormatType.unusual_rotation := by
  norm_num [detect_document_format, detect_core, envRotated, docRotated,
    initialReport, sizeStep, encryptStep, pageCountStep, ocrDecideStep, rotationStep, fontStep,
    countTextPages, countImagePages, countRotatedPages, countUnusualFonts,
    Bind.bind, Except.bind, pure, Except.pure]

/-- Witness for C4 amended at the rotated-page document. -/
theorem detect_rare_invariant_except_encrypted_witness :
    (detect_document_format true envRotated).is_rare_format = true :=
  detect_rare_invariant_except_encrypted true envRotated
    (by simp [envRotated_rare_format_type]) (by simp [envRotated_rare_format_type])

/-- C5 counterexample: when format detection fails internally, the returned
report carries no `rare_format_type` at all (the source's handler dict omits
the key), not `AnalysisError` as claimed. -/
theorem detect_error_path_not_analysis_error :
    detect_core envSizeRaises = Except.error "getsize failed" ∧
    (detect_document_format true envSizeRaises).rare_format_type = none ∧
    (detect_document_format true envSizeRaises).rare_format_type ≠
      some RareFormatType.analysis_error := by
  decide

/-- C5 amended: `detect_document_format` is total (the bare `except` catches
every internal failure), and on internal failure it returns the cautious
fallback report: `needs_ocr = true`, `processing_strategy = cautious`, and no
rare-format kind (`rare_format_type = none`, not `AnalysisError`). -/
theorem detect_never_raises_error_defaults (env : DetectEnv) (e : String)
    (h : detect_core env = Except.error e) :
    detect_document_format true env = detectErrorReport e ∧
    (detect_document_format true env).needs_ocr = true ∧
    (detect_document_format true env).processing_strategy = some ProcessingStrategy.cautious ∧
    (detect_document_format true env).rare_format_type = none := by
  simp [detect_document_format, h, detectErrorReport]

/-- Witness for C5 amended at the raising-getsize environment. -/
theorem detect_never_raises_error_defaults_witness :
    detect_document_format true envSizeRaises = detectErrorReport "getsize failed" :=
  (detect_never_raises_error_defaults envSizeRaises "getsize failed" (by decide)).1

/-- C6 counterexample: a document with more than 3 unusual-font hits whose
pages are text-rich is classified `unusual_fonts` / `careful_extraction`, but
the detector leaves `needs_ocr = false` — the report does not force OCR. -/
theorem detect_unusual_fonts_without_ocr :
    (detect_document_format true envUnusualFonts).rare_format_type =
      some RareFormatType.unusual_fonts ∧
    (detect_document_format true envUnusualFonts).processing_strategy =
      some ProcessingStrategy.careful_extraction ∧
    (detect_document_format true envUnusualFonts).needs_ocr = false := by
  have hf : countUnusualFonts
      [{ textStripLen := 200, imageCount := 0, rotation := 0,
         fonts := Except.ok ["Symbol1", "Symbol2", "ZapfDingbats", "Symbol3"] }] = 4 := by
    decide
  norm_num [detect_document_format, detect_core, envUnusualFonts, docUnusualFonts,
    initialReport, sizeStep, encryptStep, pageCountStep, ocrDecideStep, rotationStep, fontStep,
    countTextPages, countImagePages, countRotatedPages, hf,
    Bind.bind, Except.bind, pure, Except.pure]

/-- C6 amended: with more than 3 unusual-font hits over the sampled pages the
report has `rare_format_type = unusual_fonts` and `processing_strategy =
careful_extraction`, but `needs_ocr` is left as decided by the text/image
heuristic; the forcing of OCR for this strategy happens downstream in
`_convert_pdf_to_markdown`, not in the detector. -/
theorem detect_unusual_fonts_marks_careful (env : DetectEnv) (bytes : Nat) (doc : PdfDoc)
    (hs : env.getSizeBytes = Except.ok bytes) (hd : env.openDoc = Except.ok doc)
    (hf : countUnusualFonts (doc.pages.take (min 5 doc.pages.length)) > 3) :
    (detect_document_format true env).rare_format_type = some RareFormatType.unusual_fonts ∧
    (detect_document_format true env).processing_strategy =
      some ProcessingStrategy.careful_extraction := by
  have h0 : countUnusualFonts (doc.pages.take (min 5 doc.pages.length)) > 0 := by omega
  simp [detect_document_format, detect_core, hs, hd, Bind.bind, Except.bind,
        pure, Except.pure, fontStep, hf, h0]

/-- Witness for C6 amended at the four-symbol-fonts document. -/
theorem detect_unusual_fonts_marks_careful_witness :
    (detect_document_format true envUnusualFonts).rare_format_type =
      some RareFormatType.unusual_fonts :=
  (detect_unusual_fonts_marks_careful envUnusualFonts 1048576 docUnusualFonts
    rfl rfl (by decide)).1

/-- C9 counterexample: on a page with both substantial text and an image
(`textPages = imagePages = 1`), `is_scanned_pdf` answers `true` while the
detector's step-5 heuristic leaves `needs_ocr = false` — the two functions do
not compute the same boolean. -/
theorem scan_fallback_detector_disagree :
    is_scanned_pdf true envScanTextImage = true ∧
    (detect_document_format true envDetectTextImage).needs_ocr = false := by
  constructor
  · decide
  · norm_num [detect_document_format, detect_core, envDetectTextImage, docTextAndImage,
      initialReport, sizeStep, encryptStep, pageCountStep, ocrDecideStep, rotationStep, fontStep,
      countTextPages, countImagePages, countRotatedPages, countUnusualFonts,
      Bind.bind, Except.bind, pure, Except.pure]

/-- C9 amended: the standalone fallback is at least as OCR-eager as the
detector's heuristic — whenever the detector's decision (`textPages = 0 ∧
imagePages > 0`, or `textPages < imagePages`) says OCR, the fallback's
decision (`imageBlocks ≥ textBlocks`, or `textBlocks = 0`) also says scanned —
and on any error the fallback defaults to `true`. -/
theorem scan_fallback_more_eager (t i : Nat) (env : ScanEnv) (e : String) :
    (detectOcrDecision t i = true → scanDecision t i = true) ∧
    (env.openDoc = Except.error e → is_scanned_pdf true env = true) := by
  constructor
  · intro h
    unfold detectOcrDecision at h
    unfold scanDecision
    simp only [Bool.or_eq_true, Bool.and_eq_true, decide_eq_true_eq] at h ⊢
    omega
  · intro h
    simp [is_scanned_pdf, h]

/-- Witness for C9 amended at `textBlocks = 0, imageBlocks = 1` and at the
raising-open environment. -/
theorem scan_fallback_more_eager_witness :
    scanDecision 0 1 = true ∧ is_scanned_pdf true envScanRaises = true :=
  ⟨(scan_fallback_more_eager 0 1 envScanRaises "fitz.open failed").1 (by decide),
   (scan_fallback_more_eager 0 1 envScanRaises "fitz.open failed").2 rfl⟩

/-- Helper: a character that fails the predicate survives `dropWhile`. -/
theorem mem_dropWhile_of_not {p : Char → Bool} {c : Char} (hp : p c = false) :
    ∀ {l : List Char}, c ∈ l → c ∈ l.dropWhile p := by
  intro l hc
  induction l with
  | nil => simp at hc
  | cons a t ih =>
    rw [List.dropWhile_cons]
    split_ifs with ha
    · rcases List.mem_cons.mp hc with h | h
      · rw [← h] at ha; rw [ha] at hp; cases hp
      · exact ih h
    · exact hc

/-- Helper: a string containing a non-whitespace character does not strip to
the empty list. -/
theorem pyStrip_ne_nil {c : Char} {l : List Char} (hc : c ∈ l)
    (hp : pyIsSpace c = false) : pyStrip l ≠ [] := by
  unfold pyStrip
  have h1 := mem_dropWhile_of_not hp hc
  have h2 : c ∈ (l.dropWhile pyIsSpace).reverse := List.mem_reverse.mpr h1
  have h3 := mem_dropWhile_of_not hp h2
  have h4 : c ∈ ((l.dropWhile pyIsSpace).reverse.dropWhile pyIsSpace).reverse :=
    List.mem_reverse.mpr h3
  exact List.ne_nil_of_mem h4

/-- Helper: the appended conversion-info block always contains the dash of
its `---` separator. -/
theorem conversion_info_has_dash (f : Bool) (q : String) (g : Bool) (ts ct : String) :
    '-' ∈ (conversion_info f q g ts ct).data := by
  unfold conversion_info
  rw [String.data_append]
  exact List.mem_append_left _ (by decide)

/-- C2: for every environment (including missing, zero-byte and corrupt
files) and every combination of `force_ocr`, `ocr_quality` and `use_gpt`,
`convert_pdf_to_markdown` returns a string whose stripped length is positive;
and when the wrapper raises internally (total failure), the result is the
templated error stub containing the file name and the error message. -/
theorem convert_pdf_to_markdown_nonempty (env : WrapperEnv) (ts ct : String)
    (ow : Option (Option String)) (f : Bool) (q : String) (g : Bool) :
    0 < (pyStrip (convert_pdf_to_markdown env ts ct ow f q g).data).length ∧
    (∀ e, wrapper_markdown env f q g = Except.error e →
      convert_pdf_to_markdown env ts ct ow f q g =
        "# Error Converting " ++
          (env.fallbackEnv.filename ++ ("\n\nUnhandled exception: " ++ e))) := by
  constructor
  · rw [List.length_pos]
    cases hw : wrapper_markdown env f q g with
    | error e =>
      unfold convert_pdf_to_markdown
      rw [hw]
      refine pyStrip_ne_nil (c := '#') ?_ (by decide)
      rw [String.data_append]
      exact List.mem_append_left _ (by decide)
    | ok md =>
      unfold convert_pdf_to_markdown
      rw [hw]
      have hdash : ∀ s : String,
          '-' ∈ (s ++ conversion_info f q g ts ct).data := by
        intro s
        rw [String.data_append]
        exact List.mem_append_right _ (conversion_info_has_dash f q g ts ct)
      have hhash : '#' ∈
          ("# Error Converting " ++
            (env.fallbackEnv.filename ++ ("\n\nUnhandled exception: " ++ ""))).data := by
        rw [String.data_append]
        exact List.mem_append_left _ (by decide)
      match ow with
      | none => exact pyStrip_ne_nil (hdash md) (by decide)
      | some none => exact pyStrip_ne_nil (hdash md) (by decide)
      | some (some e) =>
        refine pyStrip_ne_nil (c := '#') ?_ (by decide)
        rw [String.data_append]
        exact List.mem_append_left _ (by decide)
  · intro e he
    unfold convert_pdf_to_markdown
    rw [he]

/-- Witness for C2: with every backend unavailable and a digital PDF the
wrapper raises `UnboundLocalError`, and the caller converts that into the
non-empty error stub. -/
theorem convert_pdf_to_markdown_nonempty_witness :
    0 < (pyStrip (convert_pdf_to_markdown envWrapperUnbound "T" "0.1" none false "high"
          false).data).length ∧
    convert_pdf_to_markdown envWrapperUnbound "T" "0.1" none false "high" false =
      "# Error Converting " ++
        (envWrapperUnbound.fallbackEnv.filename ++
          ("\n\nUnhandled exception: " ++
            "UnboundLocalError: local variable markdown_text referenced before assignment")) :=
  ⟨(convert_pdf_to_markdown_nonempty envWrapperUnbound "T" "0.1" none false "high" false).1,
   (convert_pdf_to_markdown_nonempty envWrapperUnbound "T" "0.1" none false "high" false).2
     "UnboundLocalError: local variable markdown_text referenced before assignment" rfl⟩

/-- Helper: each loop step adds to the seen-id list and to the output list
together, so their lengths stay equal. -/
theorem entriesLoop_len (entries : List JEntry) :
    ∀ (isFirst : Bool) (seen : List (Option String)) (acc : List DocOut),
    seen.length = acc.length →
    (entriesLoop isFirst (seen, acc) entries).1.length =
      (entriesLoop isFirst (seen, acc) entries).2.length := by
  induction entries with
  | nil => intro _ _ _ h; simpa [entriesLoop] using h
  | cons e rest ih =>
    intro isFirst seen acc h
    simp only [entriesLoop]
    unfold entryStep
    split_ifs with h1 h2 h3 <;>
      first
        | exact ih false seen acc h
        | simpa using ih false (docIdOf e :: seen) (acc ++ [mkDocOut e]) (by simp [h])

/-- C3 counterexample: aggregating two documents with the same `docId` and
different content keeps the FIRST one's content (the dedup check skips every
later occurrence), not the later one as the claim ("last-write-wins")
states. -/
theorem format_for_gpt_keeps_first_not_last :
    ((format_for_gpt "2025-03-18"
        [metaHeadEntry,
         mkSimpleDoc "104-10003-10041" "Alpha content",
         mkSimpleDoc "104-10003-10041" "Beta content"]).docs.map DocOut.content) =
      ["Alpha content"] ∧
    ("Alpha content" : String) ≠ "Beta content" := by
  constructor
  · decide
  · decide

/-- C3 amended: aggregating two document entries with the same `docId` (after
the leading metadata element) yields exactly one output entry for that id —
the EARLIER one (first-write-wins) — and in every output the metadata
element's `document_count` equals the number of document entries, i.e. the
array length minus one. -/
theorem format_for_gpt_dedup_first_wins (ts : String) (m e1 e2 : JEntry) (d : Option String)
    (hm1 : m.isDict = true) (hm2 : m.hasMetaKey = true)
    (h11 : e1.isDict = true) (h12 : e1.docIdKey = some d)
    (h21 : e2.isDict = true) (h22 : e2.docIdKey = some d) :
    (format_for_gpt ts [m, e1, e2]).docs = [mkDocOut e1] ∧
    (∀ input : List JEntry,
      (format_for_gpt ts input).meta.document_count =
        (format_for_gpt ts input).docs.length) := by
  constructor
  · simp [format_for_gpt, entriesLoop, entryStep, docIdOf, pyGet,
          hm1, hm2, h11, h12, h21, h22]
  · intro input
    have h := entriesLoop_len input true [] [] rfl
    simpa [format_for_gpt] using h

/-- Witness for C3 amended at two concrete colliding documents. -/
theorem format_for_gpt_dedup_first_wins_witness :
    (format_for_gpt "2025-03-18"
      [metaHeadEntry,
       mkSimpleDoc "104-10003-10041" "Alpha content",
       mkSimpleDoc "104-10003-10041" "Beta content"]).docs =
      [mkDocOut (mkSimpleDoc "104-10003-10041" "Alpha content")] :=
  (format_for_gpt_dedup_first_wins "2025-03-18" metaHeadEntry
    (mkSimpleDoc "104-10003-10041" "Alpha content")
    (mkSimpleDoc "104-10003-10041" "Beta content")
    (some "104-10003-10041") rfl rfl rfl rfl rfl rfl).1

/-- C10 counterexample: when the derived output file already exists but holds
invalid JSON, `markdown_to_json`'s driver does not return the existing file's
content — `json.load` raises and the handler returns `(None, None)` — so the
claim's "returns that existing file's content" fails (no conversion is
performed and the file is left unchanged, though). -/
theorem convert_existing_corrupt_json_returns_none :
    fsCorruptJson "json/doc.json" = some "not json" ∧
    (convert_to_markdown_or_json oraclesNoParse fsCorruptJson
      "md/doc.md" "json" "json" false "high").2 = none ∧
    (convert_to_markdown_or_json oraclesNoParse fsCorruptJson
      "md/doc.md" "json" "json" false "high").1 = fsCorruptJson := by
  refine ⟨rfl, rfl, rfl⟩

/-- C10 amended: when a file with the derived output name already exists, no
conversion is performed and the file system is unchanged; for markdown output
the existing text is returned as-is irrespective of `force_ocr`/`ocr_quality`,
and for JSON output the parsed existing content is returned provided
`json.load` succeeds on it (otherwise the call returns `(None, None)`). -/
theorem convert_existing_output_short_circuits {J : Type} (o : ConvOracles J)
    (fs : FileSys) (input_path output_dir : String) (f1 f2 : Bool) (q1 q2 : String)
    (existing : String) :
    (fs (pyJoin output_dir ((pySplitExt (pyBasename input_path)).1 ++ ".md")) =
        some existing →
      convert_to_markdown_or_json o fs input_path output_dir "markdown" f1 q1 =
        (fs, some (pyJoin output_dir ((pySplitExt (pyBasename input_path)).1 ++ ".md"),
              OutContent.md existing)) ∧
      convert_to_markdown_or_json o fs input_path output_dir "markdown" f1 q1 =
        convert_to_markdown_or_json o fs input_path output_dir "markdown" f2 q2) ∧
    (∀ j, fs (pyJoin output_dir ((pySplitExt (pyBasename input_path)).1 ++ ".json")) =
        some existing →
      o.jsonLoad existing = some j →
      convert_to_markdown_or_json o fs input_path output_dir "json" f1 q1 =
        (fs, some (pyJoin output_dir ((pySplitExt (pyBasename input_path)).1 ++ ".json"),
              OutContent.js j))) := by
  constructor
  · intro h
    constructor
    · simp [convert_to_markdown_or_json, Bind.bind, Except.bind, h]
    · simp [convert_to_markdown_or_json, Bind.bind, Except.bind, h]
  · intro j h hj
    simp [convert_to_markdown_or_json, Bind.bind, Except.bind, h, hj]

/-- Witness for C10 amended at a concrete one-file file system. -/
theorem convert_existing_output_short_circuits_witness :
    convert_to_markdown_or_json oraclesNoParse
      (fun p => if p = "markdown/doc.md" then some "existing text" else none)
      "pdf/doc.pdf" "markdown" "markdown" true "low" =
      ((fun p => if p = "markdown/doc.md" then some "existing text" else none),
       some ("markdown/doc.md", OutContent.md "existing text")) :=
  ((convert_existing_output_short_circuits oraclesNoParse
      (fun p => if p = "markdown/doc.md" then some "existing text" else none)
      "pdf/doc.pdf" "markdown" true false "low" "high" "existing text").1 rfl).1

/-- C1: the mapper's `except` handler uses `traceback.format_exc()` but
`conversion_utils.py` never imports `traceback`, so on any internal failure
(here: a nonexistent markdown path, whose `open` raises `FileNotFoundError`)
the handler raises `NameError` to the caller instead of returning the
documented `DocumentRecord` with an `error` field — the function is not
non-throwing. -/
theorem convert_markdown_to_json_raises_nameerror :
    convert_markdown_to_json (fun _ => none) "/missing/doc.md" none "2025-03-18T00:00:00" =
      Except.error "NameError: name \x27traceback\x27 is not defined" := rfl

/-- Witness for C8 at the concrete inputs `"# Doc"` and `""`. -/
theorem validate_markdown_quality_score_ok_witness :
    (validate_markdown_quality "# Doc").score =
      (garbledSubscore "# Doc" + structureSubscore "# Doc" + blankLineSubscore "# Doc") / 3 ∧
    validate_markdown_quality "" = { score := 0, issues := ["Empty content"] } := by
  refine ⟨(validate_markdown_quality_score_ok "# Doc").2.2.1 (by decide),
          (validate_markdown_quality_score_ok "").2.2.2 (by decide)⟩

end JFK
